import Mathlib

/-!
Verification development for the Local-Search-Aggregator backend.

The Python sources under `backend/` are shallowly embedded:
text is modelled as `List Char`, the streaming LLM client
(`services/llm_service.py`) as a state machine over a finite list of backend
frames, the search client (`services/search_service.py`) as a map from a
failure kind to the raised HTTP error, and the unified SSE orchestrator
(`routes.py`) as a function from the external outcomes (search result,
generator output, per-check disconnect flag) to the emitted envelope list.
-/

namespace LocalSearch

/-! ## String primitives (Python `str` operations over `List Char`) -/

/-- Coerce a Lean string literal to the `List Char` text representation. -/
def strL (s : String) : List Char := s.data

/-- Python `str.startswith` / prefix test on character lists. -/
def startsWith : List Char → List Char → Bool
  | [], _ => true
  | _ :: _, [] => false
  | p :: ps, c :: cs => p == c && startsWith ps cs

/-- Python `str.find`: index of the first occurrence of `pat`, or `none`. -/
def findSub (pat : List Char) : List Char → Option Nat
  | [] => if startsWith pat [] then some 0 else none
  | c :: t => if startsWith pat (c :: t) then some 0 else Option.map (· + 1) (findSub pat t)

/-- Python `in` on strings: substring containment. -/
def containsSub (pat s : List Char) : Bool := (findSub pat s).isSome

/-- Python `str.lower` (ASCII range, which covers every string the code lowers). -/
def lowerStr (s : List Char) : List Char := s.map Char.toLower

/-- Whitespace characters stripped by Python `str.strip` (ASCII range). -/
def isPySpace (c : Char) : Bool :=
  c == ' ' || c == '\t' || c == '\n' || c == '\r' || c == Char.ofNat 11 || c == Char.ofNat 12

/-- Python `str.strip`: drop leading and trailing whitespace. -/
def pstrip (s : List Char) : List Char :=
  ((s.dropWhile isPySpace).reverse.dropWhile isPySpace).reverse

/-- Concatenation of all emitted fragments (the text a client receives). -/
def joinAll (l : List (List Char)) : List Char := l.foldr (· ++ ·) []

/-! ## `services/llm_service.py`: `generate_answer_streaming`

One raw frame of the backend streaming response, after `json.loads`:
`done` is a frame whose `done` flag is true (the loop breaks), `resp s` is a
frame carrying a `response` text field `s`, and `bad` is a frame that fails
JSON decoding or lacks a `response` field (skipped).  A transport failure
mid-stream is caught and behaves like the frame list simply ending, so a
finite frame list covers normal end, backend-done, and transport failure. -/

inductive Chunk where
  | done : Chunk
  | resp : List Char → Chunk
  | bad : Chunk
deriving DecidableEq

/-- The sentinel `end_token` from `generate_answer_streaming`. -/
def endToken : List Char := strL "END OF RESPONSE"

/-- The `completion_indicators` list (the sentinel is its last element). -/
def completionIndicators : List (List Char) :=
  [strL "In conclusion", strL "To summarize", strL "In summary",
   strL "Thank you for your question", strL "I hope this helps", endToken]

/-- The closing sentence appended when the response feels incomplete. -/
def closingSentence : List Char :=
  strL "\n\nI hope this information addresses your question. Let me know if you need further clarification."

/-- The templated `fallback_answer(query)` from `llm_service.py`. -/
def fallback_answer (query : List Char) : List Char :=
  strL "I\u0027m sorry, I couldn\u0027t generate a complete response for \u0027" ++ query ++
    strL "\u0027. Please try a more specific question or check back later."

/-- The emergency fallback emitted when nothing was ever yielded. -/
def emergencyFallback : List Char :=
  strL "I apologize, but I couldn\u0027t process your request at this time. Please try again later."

/-- Loop state of `generate_answer_streaming`: `buffer`, `has_yielded`,
`natural_completion_detected`, `iterations`. -/
structure LoopState where
  buffer : List Char
  hasYielded : Bool
  natDet : Bool
  iters : Nat
deriving DecidableEq

/-- State update for a plain (sentinel-free, non-empty) chunk `s`: the buffer
grows by `s`, `has_yielded` is set, the natural-completion flag is re-scanned
case-insensitively over the grown buffer, and the iteration counter ticks. -/
def stepState (st : LoopState) (s : List Char) : LoopState :=
  { buffer := st.buffer ++ s
    hasYielded := true
    natDet := st.natDet ||
      completionIndicators.any
        (fun ind => containsSub (lowerStr ind) (lowerStr (st.buffer ++ s)))
    iters := st.iters + 1 }

/-- The `async for` body of `generate_answer_streaming`: processes the frame
list, returning the yielded fragments and the final loop state.  Mirrors
`llm_service.py` lines 182-240: a `done` frame breaks; a `bad` frame is
skipped; an empty `response` is skipped; otherwise the combined view
`buffer + chunk` is searched for the sentinel (on a hit, only the net-new
stripped text before it is yielded, without updating `buffer`/`has_yielded`);
otherwise the chunk is yielded, the buffer grows, indicators are scanned
case-insensitively, and the iteration cap is enforced (emitting the closing
sentence if no completion was detected). -/
def streamLoop (maxIter : Nat) (st : LoopState) : List Chunk → List (List Char) × LoopState
  | [] => ([], st)
  | Chunk.done :: _ => ([], st)
  | Chunk.bad :: rest => streamLoop maxIter st rest
  | Chunk.resp s :: rest =>
    if s = [] then streamLoop maxIter st rest
    else
      match findSub endToken (st.buffer ++ s) with
      | some pos =>
        (if 0 < pos then
           (let fc := pstrip ((st.buffer ++ s).take pos)
            if st.buffer.length < fc.length then [fc.drop st.buffer.length] else [])
         else [],
         { st with natDet := true })
      | none =>
        if maxIter ≤ st.iters + 1 then
          (s :: (if (stepState st s).natDet = true then [] else [closingSentence]), stepState st s)
        else
          let p := streamLoop maxIter (stepState st s) rest
          (s :: p.1, p.2)

/-- `generate_answer_streaming(query, ..., max_iterations, ...)` as the full
fragment sequence it yields for a backend frame list: the loop output, then
(line 243) the post-loop closing sentence when the response feels incomplete,
then (line 257) the templated fallback when nothing valid was received, then
(line 269) the emergency fallback when nothing at all was yielded. -/
def generate_answer_streaming (query : List Char) (maxIter : Nat) (chunks : List Chunk) :
    List (List Char) :=
  let p := streamLoop maxIter { buffer := [], hasYielded := false, natDet := false, iters := 0 } chunks
  p.1
  ++ (if p.2.hasYielded = true ∧ p.2.natDet = false ∧ p.2.iters < maxIter
      then [closingSentence] else [])
  ++ (if p.2.hasYielded = false ∨ pstrip p.2.buffer = []
      then [fallback_answer query] else [])
  ++ (if p.2.hasYielded = false then [emergencyFallback] else [])

/-! ## `services/llm_service.py`: `format_optimized_prompt`

One organic search result as consumed by the formatter: the `title`,
`snippet` and `link` dictionary entries, each possibly absent (the code
substitutes "No Title" / "No Snippet" / "No Link").  The featured answer box
carries an optional `answer` and an optional `snippet` entry; an absent or
empty box is `none`.  The two accepted key spellings `answerBox`/`answer_box`
are merged into the one optional field. -/

structure OrganicResult where
  title : Option (List Char)
  snippet : Option (List Char)
  link : Option (List Char)
deriving DecidableEq

structure AnswerBox where
  answer : Option (List Char)
  snippet : Option (List Char)
deriving DecidableEq

/-- Snippet truncation from `format_optimized_prompt`: text longer than 400
characters becomes its first 397 characters plus an ellipsis. -/
def truncateSnippet (s : List Char) : List Char :=
  if 400 < s.length then s.take 397 ++ strL "..." else s

/-- Featured-answer truncation: text longer than 500 characters becomes its
first 497 characters plus an ellipsis. -/
def truncateAnswer (s : List Char) : List Char :=
  if 500 < s.length then s.take 497 ++ strL "..." else s

/-- The fixed prompt preamble around the user query. -/
def promptHeader (query : List Char) : List Char :=
  strL "You are an AI assistant that provides helpful, accurate, thorough, and complete answers based on search results.\n\nUSER QUERY: " ++
  query ++
  strL "\n\nYour task is to analyze and synthesize the following search results to provide a comprehensive answer to the user\u0027s question. \nFocus on being accurate, detailed, dont explain it overexaggerated and complete in your response.\n\n"

/-- The `FEATURED ANSWER` section: present when the answer box is, preferring
the `answer` entry over the `snippet` entry, each truncated to 500. -/
def featuredSection : Option AnswerBox → List Char
  | none => []
  | some b =>
    strL "FEATURED ANSWER:\n" ++
    (match b.answer with
     | some a => truncateAnswer a ++ strL "\n\n"
     | none =>
       match b.snippet with
       | some sn => truncateAnswer sn ++ strL "\n\n"
       | none => [])

/-- One numbered organic-result block of the prompt. -/
def renderOrganic (i : Nat) (r : OrganicResult) : List Char :=
  Nat.toDigits 10 i ++ strL ". " ++ r.title.getD (strL "No Title") ++ strL "\n   " ++
  truncateSnippet (r.snippet.getD (strL "No Snippet")) ++ strL "\n   Source: " ++
  r.link.getD (strL "No Link") ++ strL "\n\n"

/-- The organic-result blocks, numbered from `i` (the code enumerates from 1). -/
def renderOrganicList (i : Nat) : List OrganicResult → List Char
  | [] => []
  | r :: rs => renderOrganic i r ++ renderOrganicList (i + 1) rs

/-- The fixed instruction tail of the prompt (including the sentinel request). -/
def promptInstructions : List Char :=
  strL "INSTRUCTIONS:\n1. Provide a thorough and complete answer to the user\u0027s query.\n2. Structure your response with a clear beginning, middle, and conclusion.\n3. Include relevant facts, explanations, and context from the search results.\n4. If the information is not sufficient, acknowledge this limitation.\n5. Do not include phrases like \"Based on the search results\" or \"According to the information provided\" in your answer.\n6. Write in a helpful, informative tone.\n7. Always finish your response with a proper conclusion or summary.\n8. Make sure your answer is complete and doesn\u0027t cut off mid-explanation.\n9. End your response with the phrase \"END OF RESPONSE\" to indicate you have finished.\n\nRemember: Your goal is to provide a complete, well-structured answer that fully addresses the user\u0027s question.\n\nBegin your response now:\n"

/-- `format_optimized_prompt(query, search_results)`: header, optional
featured answer, the first (at most) 5 organic results, instruction tail. -/
def format_optimized_prompt (query : List Char) (organic : List OrganicResult)
    (answerBox : Option AnswerBox) : List Char :=
  promptHeader query ++ featuredSection answerBox ++ strL "SEARCH RESULTS:\n" ++
  renderOrganicList 1 (organic.take 5) ++ promptInstructions

/-! ## `services/search_service.py`: `search_serper`

The single HTTP attempt either succeeds with parsed search data or fails with
one of the failure kinds distinguished by the exception handlers:
a non-2xx response (`httpx.HTTPStatusError`, carrying the upstream status code
and message), a timeout (`httpx.TimeoutException`), a connection failure
(`httpx.ConnectError`), another transport error (`httpx.RequestError`), or any
other exception. -/

structure SearchData where
  organic : List OrganicResult
  answerBox : Option AnswerBox
deriving DecidableEq

inductive SearchFailure where
  | statusError : Nat → List Char → SearchFailure
  | timeoutErr : List Char → SearchFailure
  | connectErr : List Char → SearchFailure
  | requestErr : List Char → SearchFailure
  | otherErr : List Char → SearchFailure
deriving DecidableEq

inductive SearchAttempt where
  | success : SearchData → SearchAttempt
  | failure : SearchFailure → SearchAttempt

/-- The `HTTPException(status_code, detail)` raised by the search client. -/
structure HTTPExceptionData where
  status_code : Nat
  detail : List Char
deriving DecidableEq

/-- The error mapping of the `except` handlers in `search_serper`
(`timeoutStr` is the printed request timeout interpolated into the 504
detail). -/
def raisedSearchError (timeoutStr : List Char) : SearchFailure → HTTPExceptionData
  | SearchFailure.statusError code msg =>
    if code = 403 then
      ⟨403, strL "Authentication failed with Serper.dev API. Please check your API key."⟩
    else
      ⟨code, strL "Search API error: " ++ msg⟩
  | SearchFailure.timeoutErr _ =>
    ⟨504, strL "Search request timed out after " ++ timeoutStr ++ strL " seconds"⟩
  | SearchFailure.connectErr _ =>
    ⟨503, strL "Could not connect to search API"⟩
  | SearchFailure.requestErr msg =>
    ⟨500, strL "Request error: " ++ msg⟩
  | SearchFailure.otherErr msg =>
    ⟨500, strL "Unexpected error: " ++ msg⟩

/-- `search_serper(query, timeout)`: issues exactly one request attempt
(`attempts 0`; the function never consults a later attempt, which is the
no-retry property) and maps a failure to the raised `HTTPException`. -/
def search_serper (timeoutStr : List Char) (attempts : Nat → SearchAttempt) :
    Except HTTPExceptionData SearchData :=
  match attempts 0 with
  | SearchAttempt.success r => Except.ok r
  | SearchAttempt.failure f => Except.error (raisedSearchError timeoutStr f)

/-! ## `routes.py`: the unified SSE orchestrator

An SSE envelope is identified by its `type` and the `step` metadata the code
attaches; `answer_chunk` envelopes carry their text, `search_result`
envelopes carry the emitted organic entry.  The `[DONE]` line is the terminal
marker.  The registry is viewed through the per-check function
`view : Nat → Option Bool`: the value the `active_streams` entry for this
request has at the n-th `is_disconnected()` call (`none` when the entry is
absent, `some d` when present with disconnected flag `d`). -/

inductive Envelope where
  | statusEnv : String → Envelope
  | searchResult : OrganicResult → Envelope
  | errorEnv : String → Envelope
  | answerChunk : List Char → Envelope
  | doneMarker : Envelope
deriving DecidableEq

def isAnswerChunk : Envelope → Bool
  | Envelope.answerChunk _ => true
  | _ => false

def isSearchResultEnv : Envelope → Bool
  | Envelope.searchResult _ => true
  | _ => false

/-- `is_disconnected()` from `generate_unified_stream`: true only when the
request id is still in `active_streams` AND its `disconnected` flag is set. -/
def is_disconnected (view : Nat → Option Bool) (n : Nat) : Bool :=
  match view n with
  | none => false
  | some d => d

/-- Result of an emission loop: emitted envelopes, next check counter,
whether the loop aborted on a disconnect check, and (for the generation
loop) whether any non-empty chunk was emitted. -/
structure PhaseOut where
  out : List Envelope
  cnt : Nat
  aborted : Bool
  hasContent : Bool

/-- The search-result emission loop (routes.py lines 305-315): one disconnect
check before each `search_result` envelope. -/
def searchResultsLoop (disc : Nat → Bool) (c : Nat) : List OrganicResult → PhaseOut
  | [] => ⟨[], c, false, false⟩
  | r :: rs =>
    if disc c then ⟨[], c + 1, true, false⟩
    else
      let p := searchResultsLoop disc (c + 1) rs
      ⟨Envelope.searchResult r :: p.out, p.cnt, p.aborted, p.hasContent⟩

/-- The generation emission loop (routes.py lines 349-371): one disconnect
check per generator item, empty chunks skipped, non-empty chunks emitted as
`answer_chunk` envelopes and recorded in `has_content`. -/
def answerChunksLoop (disc : Nat → Bool) (c : Nat) : List (List Char) → PhaseOut
  | [] => ⟨[], c, false, false⟩
  | ch :: rest =>
    if disc c then ⟨[], c + 1, true, false⟩
    else if ch = [] then
      answerChunksLoop disc (c + 1) rest
    else
      let p := answerChunksLoop disc (c + 1) rest
      ⟨Envelope.answerChunk ch :: p.out, p.cnt, p.aborted, true⟩

/-- The no-content fallback chunk (routes.py line 375). -/
def noContentFallback : List Char :=
  strL "I couldn\u0027t generate a specific answer based on the search results. Please try rephrasing your question."

/-- The generation-error fallback chunk (routes.py line 400). -/
def genErrorFallback : List Char :=
  strL "I apologize, but I encountered an error while generating your answer. Please try again."

/-- The final status envelope and `[DONE]` marker (routes.py lines 403-411). -/
def terminalPart : List Envelope :=
  [Envelope.statusEnv "complete", Envelope.doneMarker]

/-- The generation phase (routes.py lines 327-411): disconnect check, the
`generation_start` status, then either the chunk loop (aborting silently on
disconnect) followed by the no-content fallback, `generation_complete` and
the terminal part, or — when the generator phase raises — the
`generation_error` envelope, a fallback chunk and the terminal part.
`gen` is the generator outcome for the search results fed to it. -/
def genPhase (disc : Nat → Bool) (c : Nat) (gen : Except Unit (List (List Char))) :
    List Envelope :=
  if disc c then []
  else
    Envelope.statusEnv "generation_start" ::
    (match gen with
     | Except.ok chunks =>
       let p := answerChunksLoop disc (c + 1) chunks
       if p.aborted then p.out
       else
         p.out
         ++ (if p.hasContent then [] else [Envelope.answerChunk noContentFallback])
         ++ (Envelope.statusEnv "generation_complete" :: terminalPart)
     | Except.error _ =>
       Envelope.errorEnv "generation_error" :: Envelope.answerChunk genErrorFallback ::
         terminalPart)

/-- `generate_unified_stream`: the two initial status envelopes, then the
search phase — on success a disconnect check, the `search_complete` status
and the capped `search_result` loop; on a search exception one
`search_error` envelope with the empty result set `{"organic": []}`
substituted — then the generation phase driven by the generator outcome
`genf` for the search results it is fed (the full, uncapped results on the
success path).  A loop abort on a disconnect check ends the stream with no
further envelopes and no terminal marker. -/
def generate_unified_stream (disc : Nat → Bool) (searchOutcome : Except Unit SearchData)
    (maxResults : Nat) (genf : SearchData → Except Unit (List (List Char))) :
    List Envelope :=
  Envelope.statusEnv "init" :: Envelope.statusEnv "search_start" ::
  (match searchOutcome with
   | Except.ok sr =>
     if disc 0 then []
     else
       let p := searchResultsLoop disc 1 (sr.organic.take maxResults)
       Envelope.statusEnv "search_complete" ::
       (p.out ++ (if p.aborted then [] else genPhase disc p.cnt (genf sr)))
   | Except.error _ =>
     Envelope.errorEnv "search_error" :: genPhase disc 0 (genf ⟨[], none⟩))

/-- Number of `is_disconnected()` calls made during the search phase when no
check aborts: none on the search-failure path, one post-search check plus one
per emitted result on the success path. -/
def searchPhaseChecks : Except Unit SearchData → Nat → Nat
  | Except.error _, _ => 0
  | Except.ok sr, maxResults => 1 + (sr.organic.take maxResults).length

/-! ## `routes.py`: the `/unified` endpoint parameter handling

`QueryParams` is the set of optional query-string parameters of a GET
request (already converted to their target types); `StreamRequestData` the
resulting request values.  `streamRequestDefaults` records the pydantic
`StreamRequest` field defaults (routes.py lines 42-54) that apply to a POST
body. -/

structure QueryParams where
  query : Option String
  request_id : Option String
  session_id : Option String
  model : Option String
  language : Option String
  max_search_results : Option Nat
  temperature : Option Rat
  max_tokens : Option Nat
  top_p : Option Rat
  top_k : Option Nat
  timeout : Option Nat

structure StreamRequestData where
  query : String
  language : String
  max_search_results : Nat
  temperature : Rat
  max_tokens : Nat
  top_p : Rat
  top_k : Nat
  timeout : Nat
deriving DecidableEq

/-- The pydantic `StreamRequest` field defaults (used for a POST body). -/
def streamRequestDefaults (q : String) : StreamRequestData :=
  ⟨q, "en", 5, 0.7, 2048, 0.9, 40, 180⟩

/-- The GET branch of `unified_endpoint` (routes.py lines 210-229): a missing
or empty `query` parameter raises HTTP 400; otherwise the request is built
from the query string with the defaults hard-coded at lines 223-228. -/
def unified_endpoint_get (qp : QueryParams) : Except Nat StreamRequestData :=
  match qp.query with
  | none => Except.error 400
  | some q =>
    if q = "" then Except.error 400
    else Except.ok
      { query := q
        language := qp.language.getD "en"
        max_search_results := qp.max_search_results.getD 5
        temperature := qp.temperature.getD 0.7
        max_tokens := qp.max_tokens.getD 4096
        top_p := qp.top_p.getD 0.9
        top_k := qp.top_k.getD 40
        timeout := qp.timeout.getD 300 }

/-- A GET request supplying only the `query` parameter. -/
def onlyQueryParams (q : String) : QueryParams :=
  ⟨some q, none, none, none, none, none, none, none, none, none, none⟩

/-! ## Basic lemmas about the string primitives -/

theorem startsWith_append (pat : List Char) : ∀ (x r : List Char),
    startsWith pat x = true → startsWith pat (x ++ r) = true := by
  induction pat with
  | nil => intro x r _; cases x <;> simp [startsWith]
  | cons p ps ih =>
    intro x r h
    cases x with
    | nil => simp [startsWith] at h
    | cons c cs =>
      simp only [startsWith, Bool.and_eq_true] at h ⊢
      exact ⟨h.1, ih cs r h.2⟩

theorem findSub_nil_pat : ∀ s : List Char, findSub [] s = some 0 := by
  intro s; cases s <;> simp [findSub, startsWith]

theorem findSub_isSome_append (pat : List Char) : ∀ (l r : List Char),
    (findSub pat l).isSome = true → (findSub pat (l ++ r)).isSome = true := by
  intro l
  induction l with
  | nil =>
    intro r h
    simp only [findSub] at h
    by_cases hp : startsWith pat [] = true
    · cases pat with
      | nil => simp [findSub_nil_pat]
      | cons p ps => simp [startsWith] at hp
    · simp [hp] at h
  | cons c t ih =>
    intro r h
    simp only [findSub] at h
    show (findSub pat (c :: (t ++ r))).isSome = true
    simp only [findSub]
    by_cases hs2 : startsWith pat (c :: (t ++ r)) = true
    · simp [hs2]
    · rw [if_neg hs2]
      by_cases hs : startsWith pat (c :: t) = true
      · exact absurd
          (show startsWith pat (c :: (t ++ r)) = true from startsWith_append pat (c :: t) r hs)
          hs2
      · rw [if_neg hs] at h
        cases hft : findSub pat t with
        | none => rw [hft] at h; exact absurd h (by simp)
        | some v =>
          have h1 : (findSub pat t).isSome = true := by rw [hft]; rfl
          have h2 := ih r h1
          cases hftr : findSub pat (t ++ r) with
          | none => rw [hftr] at h2; exact absurd h2 (by simp)
          | some w => rfl

theorem findSub_none_of_append (pat l r : List Char)
    (h : findSub pat (l ++ r) = none) : findSub pat l = none := by
  cases hl : findSub pat l with
  | none => rfl
  | some v =>
    have h1 : (findSub pat l).isSome = true := by rw [hl]; rfl
    have h2 := findSub_isSome_append pat l r h1
    rw [h] at h2
    exact absurd h2 (by simp)

theorem containsSub_mono (pat l r : List Char)
    (h : containsSub pat (l ++ r) = false) : containsSub pat l = false := by
  cases hc : containsSub pat l with
  | false => rfl
  | true =>
    have h2 : (findSub pat (l ++ r)).isSome = true := findSub_isSome_append pat l r hc
    have h3 : (findSub pat (l ++ r)).isSome = false := h
    rw [h2] at h3
    exact absurd h3 (by simp)

theorem lowerStr_append (a b : List Char) : lowerStr (a ++ b) = lowerStr a ++ lowerStr b := by
  simp [lowerStr]

/-! ## Lemmas about `streamLoop` -/

theorem streamLoop_len_le (maxIter : Nat) : ∀ (chunks : List Chunk) (st : LoopState),
    (streamLoop maxIter st chunks).1.length ≤ chunks.length + 1 := by
  intro chunks
  induction chunks with
  | nil => intro st; simp [streamLoop]
  | cons head rest ih =>
    intro st
    cases head with
    | done => simp [streamLoop]
    | bad =>
      have h0 := ih st
      simp only [streamLoop, List.length_cons]
      omega
    | resp s =>
      simp only [streamLoop]
      split
      · have h0 := ih st
        simp only [List.length_cons]
        omega
      · split
        · split
          · split <;> simp
          · simp
        · split
          · split <;> simp
          · have h0 := ih (stepState st s)
            simp only [List.length_cons]
            omega

theorem streamLoop_len_le_iter (maxIter : Nat) : ∀ (chunks : List Chunk) (st : LoopState),
    (streamLoop maxIter st chunks).1.length ≤ (maxIter - st.iters) + 2 := by
  intro chunks
  induction chunks with
  | nil => intro st; simp [streamLoop]
  | cons head rest ih =>
    intro st
    cases head with
    | done => simp [streamLoop]
    | bad =>
      have h0 := ih st
      simp only [streamLoop]
      omega
    | resp s =>
      simp only [streamLoop]
      split
      · exact ih st
      · split
        · split
          · split <;> simp
          · simp
        · split
          · split <;> simp
          · rename_i hcap
            have h0 := ih (stepState st s)
            have hit : (stepState st s).iters = st.iters + 1 := rfl
            rw [hit] at h0
            simp only [not_le] at hcap
            simp only [List.length_cons]
            omega

theorem streamLoop_out_ne_nil (maxIter : Nat) : ∀ (chunks : List Chunk) (st : LoopState),
    st.hasYielded = false → (streamLoop maxIter st chunks).2.hasYielded = true →
    (streamLoop maxIter st chunks).1 ≠ [] := by
  intro chunks
  induction chunks with
  | nil =>
    intro st h0 h1
    simp only [streamLoop] at h1
    rw [h0] at h1
    exact absurd h1 (by simp)
  | cons head rest ih =>
    intro st h0 h1
    cases head with
    | done =>
      simp only [streamLoop] at h1
      rw [h0] at h1
      exact absurd h1 (by simp)
    | bad =>
      simp only [streamLoop] at h1 ⊢
      exact ih st h0 h1
    | resp s =>
      simp only [streamLoop] at h1 ⊢
      split at h1
      · rename_i hs
        rw [if_pos hs]
        exact ih st h0 h1
      · rename_i hs
        rw [if_neg hs]
        split at h1
        · exact absurd (show st.hasYielded = true from h1) (by rw [h0]; simp)
        · split <;> simp

theorem generate_answer_streaming_eq (q : List Char) (maxIter : Nat) (chunks : List Chunk) :
    generate_answer_streaming q maxIter chunks =
      (streamLoop maxIter { buffer := [], hasYielded := false, natDet := false, iters := 0 } chunks).1
      ++ (if (streamLoop maxIter ⟨[], false, false, 0⟩ chunks).2.hasYielded = true ∧
             (streamLoop maxIter ⟨[], false, false, 0⟩ chunks).2.natDet = false ∧
             (streamLoop maxIter ⟨[], false, false, 0⟩ chunks).2.iters < maxIter
          then [closingSentence] else [])
      ++ (if (streamLoop maxIter ⟨[], false, false, 0⟩ chunks).2.hasYielded = false ∨
             pstrip (streamLoop maxIter ⟨[], false, false, 0⟩ chunks).2.buffer = []
          then [fallback_answer q] else [])
      ++ (if (streamLoop maxIter ⟨[], false, false, 0⟩ chunks).2.hasYielded = false
          then [emergencyFallback] else []) := rfl

/-! ## Claim theorems: the LLM streaming client -/

/-- C1 counterexample: the backend text `"Paris is the capital.END OF RESPONSE"`
split at a boundary strictly inside the sentinel (after `"END"`) makes
`generate_answer_streaming` emit `"Paris is the capital.END"`: the emitted text
is not the claimed `"Paris is the capital."`, and a part of the sentinel
(`"END"`) does reach the downstream output. -/
theorem c1_counterexample :
    generate_answer_streaming (strL "q") 100
        [Chunk.resp (strL "Paris is the capital.END"), Chunk.resp (strL " OF RESPONSE")]
      = [strL "Paris is the capital.END"] ∧
    joinAll (generate_answer_streaming (strL "q") 100
        [Chunk.resp (strL "Paris is the capital.END"), Chunk.resp (strL " OF RESPONSE")])
      ≠ strL "Paris is the capital." ∧
    containsSub (strL "END")
      (joinAll (generate_answer_streaming (strL "q") 100
        [Chunk.resp (strL "Paris is the capital.END"), Chunk.resp (strL " OF RESPONSE")]))
      = true := by
  refine ⟨by decide, by decide, by decide⟩

/-- C1 (amended): for the backend text `"Paris is the capital.END OF RESPONSE"`
split into two chunks at any boundary that does not fall strictly inside the
sentinel (positions 1..21, i.e. at or before the sentinel start), the emitted
fragments concatenate to exactly `"Paris is the capital."`, so the sentinel
never reaches the output. -/
theorem c1_amended : ∀ k : Nat, k ≤ 20 →
    joinAll (generate_answer_streaming (strL "q") 100
      [Chunk.resp ((strL "Paris is the capital.END OF RESPONSE").take (k + 1)),
       Chunk.resp ((strL "Paris is the capital.END OF RESPONSE").drop (k + 1))])
    = strL "Paris is the capital." := by decide

/-- Witness for the amended C1 at the split position 6. -/
theorem c1_amended_witness :
    (5 : Nat) ≤ 20 ∧
    joinAll (generate_answer_streaming (strL "q") 100
      [Chunk.resp ((strL "Paris is the capital.END OF RESPONSE").take (5 + 1)),
       Chunk.resp ((strL "Paris is the capital.END OF RESPONSE").drop (5 + 1))])
    = strL "Paris is the capital." :=
  ⟨by decide, c1_amended 5 (by decide)⟩

/-- C2: for every query, iteration cap and backend frame sequence (empty
streams, mid-stream transport failures and never-done backends are all
truncations of the frame list), the fragment sequence produced by
`generate_answer_streaming` is finite and non-empty, with length bounded both
by the frame count and by the iteration cap. -/
theorem c2 (q : List Char) (maxIter : Nat) (chunks : List Chunk) :
    1 ≤ (generate_answer_streaming q maxIter chunks).length ∧
    (generate_answer_streaming q maxIter chunks).length ≤ chunks.length + 4 ∧
    (generate_answer_streaming q maxIter chunks).length ≤ maxIter + 5 := by
  have hlen := streamLoop_len_le maxIter chunks ⟨[], false, false, 0⟩
  have hiter : (streamLoop maxIter ⟨[], false, false, 0⟩ chunks).1.length ≤ (maxIter - 0) + 2 :=
    streamLoop_len_le_iter maxIter chunks ⟨[], false, false, 0⟩
  rw [generate_answer_streaming_eq]
  set p := streamLoop maxIter (⟨[], false, false, 0⟩ : LoopState) chunks with hp
  have i1 : (if p.2.hasYielded = true ∧ p.2.natDet = false ∧ p.2.iters < maxIter
      then [closingSentence] else []).length ≤ 1 := by split <;> simp
  have i2 : (if p.2.hasYielded = false ∨ pstrip p.2.buffer = []
      then [fallback_answer q] else []).length ≤ 1 := by split <;> simp
  have i3 : (if p.2.hasYielded = false then [emergencyFallback] else []).length ≤ 1 := by
    split <;> simp
  have hlow : 1 ≤ p.1.length +
      (if p.2.hasYielded = false then [emergencyFallback] else []).length := by
    cases hy : p.2.hasYielded with
    | false => simp [hy]
    | true =>
      have hne : p.1 ≠ [] := by
        rw [hp]
        exact streamLoop_out_ne_nil maxIter chunks ⟨[], false, false, 0⟩ rfl (by rw [← hp]; exact hy)
      have := List.length_pos.mpr hne
      omega
  simp only [List.length_append]
  exact ⟨by omega, by omega, by omega⟩

theorem streamLoop_cont_lit (maxIter : Nat) (buf : List Char) (hy nd : Bool) (it : Nat)
    (s : List Char) (rest : List Chunk) (hs : s ≠ [])
    (hf : findSub endToken (buf ++ s) = none) (hcap : it + 1 < maxIter) :
    streamLoop maxIter ⟨buf, hy, nd, it⟩ (Chunk.resp s :: rest)
      = ((s :: (streamLoop maxIter (stepState ⟨buf, hy, nd, it⟩ s) rest).1),
         (streamLoop maxIter (stepState ⟨buf, hy, nd, it⟩ s) rest).2) := by
  simp only [streamLoop, if_neg hs, hf]
  rw [if_neg (show ¬ maxIter ≤ it + 1 by omega)]

theorem streamLoop_cap_lit (maxIter : Nat) (buf : List Char) (hy nd : Bool) (it : Nat)
    (s : List Char) (rest : List Chunk) (hs : s ≠ [])
    (hf : findSub endToken (buf ++ s) = none) (hcap : maxIter ≤ it + 1) :
    streamLoop maxIter ⟨buf, hy, nd, it⟩ (Chunk.resp s :: rest)
      = ((s :: (if (stepState ⟨buf, hy, nd, it⟩ s).natDet = true then [] else [closingSentence])),
         stepState ⟨buf, hy, nd, it⟩ s) := by
  simp only [streamLoop, if_neg hs, hf]
  rw [if_pos hcap]

theorem streamLoop_sentinel_initial (maxIter : Nat) (s : List Char) (rest : List Chunk)
    (pos : Nat) (hs : s ≠ []) (hf : findSub endToken s = some pos) :
    streamLoop maxIter ⟨[], false, false, 0⟩ (Chunk.resp s :: rest)
      = ((if 0 < pos then
            (if 0 < (pstrip (s.take pos)).length then [pstrip (s.take pos)] else [])
          else []),
         ⟨[], false, true, 0⟩) := by
  simp only [streamLoop, List.nil_append, if_neg hs, hf]
  rfl

theorem stepState_lit (buf : List Char) (hy nd : Bool) (it : Nat) (s : List Char)
    (hind : completionIndicators.any
      (fun ind => containsSub (lowerStr ind) (lowerStr (buf ++ s))) = false) :
    stepState ⟨buf, hy, nd, it⟩ s = ⟨buf ++ s, true, nd, it + 1⟩ := by
  simp [stepState, hind]

theorem any_contains_mono (inds : List (List Char)) (l r : List Char)
    (h : inds.any (fun ind => containsSub (lowerStr ind) (lowerStr (l ++ r))) = false) :
    inds.any (fun ind => containsSub (lowerStr ind) (lowerStr l)) = false := by
  rw [List.any_eq_false] at h ⊢
  intro x hx
  have hw := h x hx
  intro hcl
  apply hw
  rw [lowerStr_append]
  have := findSub_isSome_append (lowerStr x) (lowerStr l) (lowerStr r) hcl
  exact this

/-- C3: for a backend that never signals done, never produces the sentinel,
produces fragments with no natural-completion indicator phrase and at least
some non-whitespace content, `generate_answer_streaming` with the iteration
cap 3 yields exactly the 3 content fragments followed by the single
synthesized closing sentence, then terminates (the remaining backend frames
are never consumed). -/
theorem c3 (q f1 f2 f3 : List Char) (rest : List Chunk)
    (h1 : f1 ≠ []) (h2 : f2 ≠ []) (h3 : f3 ≠ [])
    (hfind : findSub endToken ((f1 ++ f2) ++ f3) = none)
    (hind : ∀ ind ∈ completionIndicators,
      containsSub (lowerStr ind) (lowerStr ((f1 ++ f2) ++ f3)) = false)
    (hws : pstrip ((f1 ++ f2) ++ f3) ≠ []) :
    generate_answer_streaming q 3 (Chunk.resp f1 :: Chunk.resp f2 :: Chunk.resp f3 :: rest)
      = [f1, f2, f3, closingSentence] := by
  have hA3 : completionIndicators.any
      (fun ind => containsSub (lowerStr ind) (lowerStr ((f1 ++ f2) ++ f3))) = false := by
    rw [List.any_eq_false]
    intro x hx
    rw [hind x hx]
    simp
  have hA2 : completionIndicators.any
      (fun ind => containsSub (lowerStr ind) (lowerStr (f1 ++ f2))) = false :=
    any_contains_mono completionIndicators (f1 ++ f2) f3 hA3
  have hA1 : completionIndicators.any
      (fun ind => containsSub (lowerStr ind) (lowerStr f1)) = false :=
    any_contains_mono completionIndicators f1 f2 hA2
  have hf2' : findSub endToken (f1 ++ f2) = none :=
    findSub_none_of_append endToken (f1 ++ f2) f3 hfind
  have hf1' : findSub endToken f1 = none :=
    findSub_none_of_append endToken f1 f2 hf2'
  rw [generate_answer_streaming_eq]
  rw [streamLoop_cont_lit 3 [] false false 0 f1 _ h1
        (show findSub endToken ([] ++ f1) = none by rwa [List.nil_append]) (by omega)]
  rw [stepState_lit [] false false 0 f1
        (show completionIndicators.any
          (fun ind => containsSub (lowerStr ind) (lowerStr ([] ++ f1))) = false
          by rwa [List.nil_append])]
  rw [List.nil_append]
  rw [streamLoop_cont_lit 3 f1 true false 1 f2 _ h2 hf2' (by omega)]
  rw [stepState_lit f1 true false 1 f2 hA2]
  rw [streamLoop_cap_lit 3 (f1 ++ f2) true false 2 f3 _ h3 hfind (by omega)]
  rw [stepState_lit (f1 ++ f2) true false 2 f3 hA3]
  have hws2 : pstrip (f1 ++ (f2 ++ f3)) ≠ [] := by rwa [← List.append_assoc]
  simp [hws, hws2]

/-- Witness for C3 on the fragments "He", "llo", " world". -/
theorem c3_witness :
    (strL "He" ≠ [] ∧ strL "llo" ≠ [] ∧ strL " world" ≠ [] ∧
     findSub endToken ((strL "He" ++ strL "llo") ++ strL " world") = none ∧
     (∀ ind ∈ completionIndicators,
        containsSub (lowerStr ind) (lowerStr ((strL "He" ++ strL "llo") ++ strL " world")) = false) ∧
     pstrip ((strL "He" ++ strL "llo") ++ strL " world") ≠ []) ∧
    generate_answer_streaming (strL "q") 3
        (Chunk.resp (strL "He") :: Chunk.resp (strL "llo") :: Chunk.resp (strL " world") :: [Chunk.resp (strL "x")])
      = [strL "He", strL "llo", strL " world", closingSentence] :=
  ⟨⟨by decide, by decide, by decide, by decide, by decide, by decide⟩,
   c3 (strL "q") (strL "He") (strL "llo") (strL " world") [Chunk.resp (strL "x")]
     (by decide) (by decide) (by decide) (by decide) (by decide) (by decide)⟩

/-- C9: when the very first backend fragment already contains answer text
followed by the sentinel, the sentinel path yields the answer text without
setting `has_yielded` or updating the buffer, so the generator then also
yields the templated fallback answer and finally the emergency apology
string. -/
theorem c9 (q a : List Char) (maxIter : Nat) (rest : List Chunk)
    (ha : a ≠ []) (hstrip : pstrip a = a)
    (hfind : findSub endToken (a ++ endToken) = some a.length) :
    generate_answer_streaming q maxIter (Chunk.resp (a ++ endToken) :: rest)
      = [a, fallback_answer q, emergencyFallback] := by
  have hne : a ++ endToken ≠ [] := by simp [ha]
  rw [generate_answer_streaming_eq]
  rw [streamLoop_sentinel_initial maxIter (a ++ endToken) rest a.length hne hfind]
  rw [List.take_left a endToken]
  rw [hstrip]
  rw [if_pos (List.length_pos.mpr ha)]
  rw [if_pos (List.length_pos.mpr ha)]
  simp

/-- Witness for C9 on the fragment "Paris is the capital.END OF RESPONSE". -/
theorem c9_witness :
    (strL "Paris is the capital." ≠ [] ∧
     pstrip (strL "Paris is the capital.") = strL "Paris is the capital." ∧
     findSub endToken (strL "Paris is the capital." ++ endToken)
       = some (strL "Paris is the capital.").length) ∧
    generate_answer_streaming (strL "q") 100 [Chunk.resp (strL "Paris is the capital." ++ endToken)]
      = [strL "Paris is the capital.", fallback_answer (strL "q"), emergencyFallback] :=
  ⟨⟨by decide, by decide, by decide⟩,
   c9 (strL "q") (strL "Paris is the capital.") 100 [] (by decide) (by decide) (by decide)⟩

/-! ## Lemmas about the orchestrator loops -/

theorem searchResultsLoop_all_false (disc : Nat → Bool) (h : ∀ n, disc n = false) :
    ∀ (rs : List OrganicResult) (c : Nat),
      searchResultsLoop disc c rs
        = ⟨rs.map Envelope.searchResult, c + rs.length, false, false⟩ := by
  intro rs
  induction rs with
  | nil => intro c; simp [searchResultsLoop]
  | cons r rs ih =>
    intro c
    simp only [searchResultsLoop, h c, ih (c + 1), List.map_cons, List.length_cons]
    simp
    omega

theorem searchResultsLoop_out_sr (disc : Nat → Bool) :
    ∀ (rs : List OrganicResult) (c : Nat),
      ∀ e ∈ (searchResultsLoop disc c rs).out, isSearchResultEnv e = true := by
  intro rs
  induction rs with
  | nil => intro c e he; simp [searchResultsLoop] at he
  | cons r rs ih =>
    intro c e he
    simp only [searchResultsLoop] at he
    by_cases hd : disc c = true
    · rw [if_pos hd] at he
      simp at he
    · rw [if_neg hd] at he
      simp only [List.mem_cons] at he
      rcases he with rfl | he2
      · rfl
      · exact ih (c + 1) e he2

theorem searchResultsLoop_cnt (disc : Nat → Bool) :
    ∀ (rs : List OrganicResult) (c : Nat),
      (searchResultsLoop disc c rs).aborted = false →
      (searchResultsLoop disc c rs).cnt = c + rs.length := by
  intro rs
  induction rs with
  | nil => intro c _; simp [searchResultsLoop]
  | cons r rs ih =>
    intro c hab
    simp only [searchResultsLoop] at hab ⊢
    by_cases hd : disc c = true
    · rw [if_pos hd] at hab
      exact absurd hab (by simp)
    · rw [if_neg hd] at hab ⊢
      have := ih (c + 1) hab
      simp only [this, List.length_cons]
      omega

theorem answerChunksLoop_not_aborted (disc : Nat → Bool) (h : ∀ n, disc n = false) :
    ∀ (chs : List (List Char)) (c : Nat), (answerChunksLoop disc c chs).aborted = false := by
  intro chs
  induction chs with
  | nil => intro c; simp [answerChunksLoop]
  | cons ch rest ih =>
    intro c
    simp only [answerChunksLoop, h c]
    by_cases hc : ch = []
    · simp only [if_pos hc, Bool.false_eq_true, if_false]
      exact ih (c + 1)
    · simp only [if_neg hc, Bool.false_eq_true, if_false]
      exact ih (c + 1)

theorem answerChunksLoop_out_ac (disc : Nat → Bool) :
    ∀ (chs : List (List Char)) (c : Nat),
      ∀ e ∈ (answerChunksLoop disc c chs).out, isAnswerChunk e = true := by
  intro chs
  induction chs with
  | nil => intro c e he; simp [answerChunksLoop] at he
  | cons ch rest ih =>
    intro c e he
    simp only [answerChunksLoop] at he
    by_cases hd : disc c = true
    · rw [if_pos hd] at he
      simp at he
    · rw [if_neg hd] at he
      by_cases hc : ch = []
      · rw [if_pos hc] at he
        exact ih (c + 1) e he
      · rw [if_neg hc] at he
        simp only [List.mem_cons] at he
        rcases he with rfl | he2
        · rfl
        · exact ih (c + 1) e he2

theorem env_benign_of_sr (e : Envelope) (h : isSearchResultEnv e = true) :
    isAnswerChunk e = false ∧ e ≠ Envelope.doneMarker := by
  cases e <;> simp [isSearchResultEnv] at h <;> simp [isAnswerChunk]

theorem env_not_sr_of_ac (e : Envelope) (h : isAnswerChunk e = true) :
    isSearchResultEnv e = false ∧ e ≠ Envelope.errorEnv "search_error" := by
  cases e <;> simp [isAnswerChunk] at h <;> simp [isSearchResultEnv]

theorem genPhase_ok (disc : Nat → Bool) (c : Nat) (chunks : List (List Char)) :
    genPhase disc c (Except.ok chunks)
      = if disc c then []
        else Envelope.statusEnv "generation_start" ::
          (if (answerChunksLoop disc (c + 1) chunks).aborted
           then (answerChunksLoop disc (c + 1) chunks).out
           else (answerChunksLoop disc (c + 1) chunks).out
             ++ (if (answerChunksLoop disc (c + 1) chunks).hasContent
                 then [] else [Envelope.answerChunk noContentFallback])
             ++ (Envelope.statusEnv "generation_complete" :: terminalPart)) := rfl

theorem genPhase_err (disc : Nat → Bool) (c : Nat) (u : Unit) :
    genPhase disc c (Except.error u)
      = if disc c then []
        else [Envelope.statusEnv "generation_start", Envelope.errorEnv "generation_error",
              Envelope.answerChunk genErrorFallback, Envelope.statusEnv "complete",
              Envelope.doneMarker] := rfl

theorem genPhase_elem (disc : Nat → Bool) (c : Nat) (gen : Except Unit (List (List Char))) :
    ∀ e ∈ genPhase disc c gen,
      isSearchResultEnv e = false ∧ e ≠ Envelope.errorEnv "search_error" := by
  intro e he
  cases gen with
  | ok chunks =>
    rw [genPhase_ok] at he
    by_cases hd : disc c = true
    · rw [if_pos hd] at he
      simp at he
    · rw [if_neg hd] at he
      simp only [List.mem_cons] at he
      rcases he with rfl | he2
      · exact ⟨rfl, by simp⟩
      · by_cases pab : (answerChunksLoop disc (c + 1) chunks).aborted = true
        · rw [if_pos pab] at he2
          exact env_not_sr_of_ac e (answerChunksLoop_out_ac disc chunks (c + 1) e he2)
        · rw [if_neg pab] at he2
          simp only [List.mem_append, List.mem_cons, terminalPart] at he2
          rcases he2 with (hin | hfb) | hrest
          · exact env_not_sr_of_ac e (answerChunksLoop_out_ac disc chunks (c + 1) e hin)
          · have : e = Envelope.answerChunk noContentFallback := by
              by_cases hc : (answerChunksLoop disc (c + 1) chunks).hasContent = true
              · rw [if_pos hc] at hfb
                simp at hfb
              · rw [if_neg hc] at hfb
                simpa using hfb
            subst this
            exact ⟨rfl, by simp⟩
          · rcases hrest with rfl | rfl | rfl | h0
            · exact ⟨rfl, by simp⟩
            · exact ⟨rfl, by simp⟩
            · exact ⟨rfl, by simp⟩
            · simp at h0
  | error u =>
    rw [genPhase_err] at he
    by_cases hd : disc c = true
    · rw [if_pos hd] at he
      simp at he
    · rw [if_neg hd] at he
      simp only [List.mem_cons] at he
      rcases he with rfl | rfl | rfl | rfl | rfl | h0
      · exact ⟨rfl, by simp⟩
      · exact ⟨rfl, by simp⟩
      · exact ⟨rfl, by simp⟩
      · exact ⟨rfl, by simp⟩
      · exact ⟨rfl, by simp⟩
      · simp at h0

theorem genPhase_ends_terminal (disc : Nat → Bool) (c : Nat)
    (gen : Except Unit (List (List Char))) (h : ∀ n, disc n = false) :
    ∃ pre, genPhase disc c gen = pre ++ terminalPart := by
  simp only [genPhase, h c, Bool.false_eq_true, if_false]
  cases gen with
  | ok chunks =>
    have hab : (answerChunksLoop disc (c + 1) chunks).aborted = false :=
      answerChunksLoop_not_aborted disc h chunks (c + 1)
    refine ⟨Envelope.statusEnv "generation_start" ::
      ((answerChunksLoop disc (c + 1) chunks).out
        ++ (if (answerChunksLoop disc (c + 1) chunks).hasContent
            then [] else [Envelope.answerChunk noContentFallback])
        ++ [Envelope.statusEnv "generation_complete"]), ?_⟩
    simp [hab]
  | error u =>
    exact ⟨[Envelope.statusEnv "generation_start", Envelope.errorEnv "generation_error",
      Envelope.answerChunk genErrorFallback], rfl⟩

theorem genPhase_mem_start (disc : Nat → Bool) (c : Nat)
    (gen : Except Unit (List (List Char))) (h : disc c = false) :
    Envelope.statusEnv "generation_start" ∈ genPhase disc c gen := by
  simp [genPhase, h]

theorem stream_ends_terminal (disc : Nat → Bool) (searchOutcome : Except Unit SearchData)
    (maxResults : Nat) (genf : SearchData → Except Unit (List (List Char)))
    (h : ∀ n, disc n = false) :
    ∃ pre, generate_unified_stream disc searchOutcome maxResults genf
      = pre ++ terminalPart := by
  cases searchOutcome with
  | error u =>
    obtain ⟨pre, hp⟩ := genPhase_ends_terminal disc 0 (genf ⟨[], none⟩) h
    exact ⟨Envelope.statusEnv "init" :: Envelope.statusEnv "search_start" ::
      Envelope.errorEnv "search_error" :: pre, by simp [generate_unified_stream, hp]⟩
  | ok sr =>
    have hl := searchResultsLoop_all_false disc h (sr.organic.take maxResults) 1
    obtain ⟨pre, hp⟩ :=
      genPhase_ends_terminal disc (1 + (sr.organic.take maxResults).length) (genf sr) h
    rw [List.length_take] at hp
    refine ⟨Envelope.statusEnv "init" :: Envelope.statusEnv "search_start" ::
      Envelope.statusEnv "search_complete" ::
      ((sr.organic.take maxResults).map Envelope.searchResult ++ pre), ?_⟩
    simp [generate_unified_stream, h 0, hl, hp]

/-! ## Claim theorems: orchestrator, endpoint, search client, formatter -/

/-- C4: when the search call raises, the orchestrator (with a connected
client) emits exactly one `search_error` envelope, substitutes the empty
result set into the generation phase, still enters the generation phase, and
the stream ends with the final `complete` status envelope and the `[DONE]`
marker — whatever the generator then does. -/
theorem c4 (maxResults : Nat) (genf : SearchData → Except Unit (List (List Char))) :
    generate_unified_stream (fun _ => false) (Except.error ()) maxResults genf
      = Envelope.statusEnv "init" :: Envelope.statusEnv "search_start" ::
        Envelope.errorEnv "search_error" :: genPhase (fun _ => false) 0 (genf ⟨[], none⟩) ∧
    Envelope.statusEnv "generation_start"
      ∈ generate_unified_stream (fun _ => false) (Except.error ()) maxResults genf ∧
    (generate_unified_stream (fun _ => false) (Except.error ()) maxResults genf).count
      (Envelope.errorEnv "search_error") = 1 ∧
    ∃ pre, generate_unified_stream (fun _ => false) (Except.error ()) maxResults genf
      = pre ++ [Envelope.statusEnv "complete", Envelope.doneMarker] := by
  have h1 : generate_unified_stream (fun _ => false) (Except.error ()) maxResults genf
      = Envelope.statusEnv "init" :: Envelope.statusEnv "search_start" ::
        Envelope.errorEnv "search_error" :: genPhase (fun _ => false) 0 (genf ⟨[], none⟩) := rfl
  refine ⟨h1, ?_, ?_, ?_⟩
  · rw [h1]
    have := genPhase_mem_start (fun _ => false) 0 (genf ⟨[], none⟩) rfl
    simp only [List.mem_cons]
    exact Or.inr (Or.inr (Or.inr this))
  · rw [h1]
    have h0 : Envelope.errorEnv "search_error" ∉ genPhase (fun _ => false) 0 (genf ⟨[], none⟩) :=
      fun hmem => (genPhase_elem (fun _ => false) 0 (genf ⟨[], none⟩) _ hmem).2 rfl
    simp [List.count_cons, List.count_eq_zero.mpr h0]
  · obtain ⟨pre, hp⟩ :=
      stream_ends_terminal (fun _ => false) (Except.error ()) maxResults genf (fun n => rfl)
    exact ⟨pre, hp⟩

/-- C5: if the disconnect check reads true at the check made at the start of
the generation phase (the flag was set, with the registry entry present,
before the generation phase begins), the stream for that session contains no
`answer_chunk` envelope and no `[DONE]` marker, whichever earlier check (if
any) already aborted it. -/
theorem c5 (view : Nat → Option Bool) (searchOutcome : Except Unit SearchData)
    (maxResults : Nat) (genf : SearchData → Except Unit (List (List Char)))
    (hdisc : is_disconnected view (searchPhaseChecks searchOutcome maxResults) = true) :
    ∀ e ∈ generate_unified_stream (is_disconnected view) searchOutcome maxResults genf,
      isAnswerChunk e = false ∧ e ≠ Envelope.doneMarker := by
  intro e he
  cases searchOutcome with
  | error u =>
    have h0 : is_disconnected view 0 = true := hdisc
    have hg : genPhase (is_disconnected view) 0 (genf ⟨[], none⟩) = [] := by
      simp [genPhase, h0]
    simp only [generate_unified_stream, hg] at he
    simp only [List.mem_cons] at he
    rcases he with rfl | rfl | rfl | h0'
    · exact ⟨rfl, by simp⟩
    · exact ⟨rfl, by simp⟩
    · exact ⟨rfl, by simp⟩
    · simp at h0'
  | ok sr =>
    by_cases h0 : is_disconnected view 0 = true
    · simp only [generate_unified_stream, if_pos h0] at he
      simp only [List.mem_cons] at he
      rcases he with rfl | rfl | h0'
      · exact ⟨rfl, by simp⟩
      · exact ⟨rfl, by simp⟩
      · simp at h0'
    · simp only [generate_unified_stream, if_neg h0] at he
      by_cases pab :
          (searchResultsLoop (is_disconnected view) 1 (sr.organic.take maxResults)).aborted = true
      · rw [if_pos pab] at he
        simp only [List.mem_cons, List.mem_append] at he
        rcases he with rfl | rfl | rfl | hin | h0'
        · exact ⟨rfl, by simp⟩
        · exact ⟨rfl, by simp⟩
        · exact ⟨rfl, by simp⟩
        · exact env_benign_of_sr e
            (searchResultsLoop_out_sr (is_disconnected view) (sr.organic.take maxResults) 1 e hin)
        · simp at h0'
      · rw [if_neg pab] at he
        have pabf :
            (searchResultsLoop (is_disconnected view) 1 (sr.organic.take maxResults)).aborted
              = false := by
          cases hh :
              (searchResultsLoop (is_disconnected view) 1 (sr.organic.take maxResults)).aborted
          · rfl
          · exact absurd hh pab
        have hcnt :=
          searchResultsLoop_cnt (is_disconnected view) (sr.organic.take maxResults) 1 pabf
        have hk : is_disconnected view
            (searchResultsLoop (is_disconnected view) 1 (sr.organic.take maxResults)).cnt
              = true := by
          rw [hcnt]
          exact hdisc
        have hg : genPhase (is_disconnected view)
            (searchResultsLoop (is_disconnected view) 1 (sr.organic.take maxResults)).cnt
            (genf sr) = [] := by
          simp [genPhase, hk]
        rw [hg] at he
        simp only [List.mem_cons, List.mem_append] at he
        rcases he with rfl | rfl | rfl | hin | h0'
        · exact ⟨rfl, by simp⟩
        · exact ⟨rfl, by simp⟩
        · exact ⟨rfl, by simp⟩
        · exact env_benign_of_sr e
            (searchResultsLoop_out_sr (is_disconnected view) (sr.organic.take maxResults) 1 e hin)
        · simp at h0'

/-- Witness for C5: a session already marked disconnected. -/
theorem c5_witness :
    is_disconnected (fun _ => some true)
      (searchPhaseChecks (Except.ok (⟨[], none⟩ : SearchData)) 5) = true ∧
    (∀ e ∈ generate_unified_stream (is_disconnected (fun _ => some true))
        (Except.ok (⟨[], none⟩ : SearchData)) 5 (fun _ => Except.ok [strL "hi"]),
      isAnswerChunk e = false ∧ e ≠ Envelope.doneMarker) :=
  ⟨rfl, c5 (fun _ => some true) (Except.ok ⟨[], none⟩) 5 (fun _ => Except.ok [strL "hi"]) rfl⟩

/-- C10: the disconnect check returns false whenever the registry entry is
absent, so a stream whose entry was removed (sweep or completion hook) is
treated as connected and runs through to the `[DONE]` marker. -/
theorem c10 (view : Nat → Option Bool) (searchOutcome : Except Unit SearchData)
    (maxResults : Nat) (genf : SearchData → Except Unit (List (List Char))) (n : Nat)
    (habs : ∀ m, view m = none) :
    is_disconnected view n = false ∧
    (generate_unified_stream (is_disconnected view) searchOutcome maxResults genf).getLast?
      = some Envelope.doneMarker := by
  have hfalse : ∀ m, is_disconnected view m = false := by
    intro m
    simp [is_disconnected, habs m]
  refine ⟨hfalse n, ?_⟩
  obtain ⟨pre, hp⟩ :=
    stream_ends_terminal (is_disconnected view) searchOutcome maxResults genf hfalse
  rw [hp]
  rw [show pre ++ terminalPart
    = (pre ++ [Envelope.statusEnv "complete"]) ++ [Envelope.doneMarker] by simp [terminalPart]]
  exact List.getLast?_concat (pre ++ [Envelope.statusEnv "complete"])

/-- Witness for C10: an absent registry entry with a failing search. -/
theorem c10_witness :
    (∀ m, (fun _ : Nat => (none : Option Bool)) m = none) ∧
    (is_disconnected (fun _ => none) 0 = false ∧
     (generate_unified_stream (is_disconnected (fun _ => none)) (Except.error ()) 5
        (fun _ => Except.ok [strL "hi"])).getLast? = some Envelope.doneMarker) :=
  ⟨fun m => rfl,
   c10 (fun _ => none) (Except.error ()) 5 (fun _ => Except.ok [strL "hi"]) 0 (fun m => rfl)⟩

/-- C6 counterexample: a GET request supplying only `query` is processed
with `max_tokens = 4096` and `timeout = 300` (the hard-coded defaults of the
query-parameter branch), not the claimed 2048 and 180. -/
theorem c6_counterexample :
    unified_endpoint_get (onlyQueryParams "capital of France")
      = Except.ok ⟨"capital of France", "en", 5, 0.7, 4096, 0.9, 40, 300⟩ ∧
    (4096 : Nat) ≠ 2048 ∧ (300 : Nat) ≠ 180 :=
  ⟨rfl, by decide, by decide⟩

/-- C6 (amended): a GET request supplying only a non-empty `query` is
processed with defaults `max_search_results = 5`, `temperature = 0.7`,
`max_tokens = 4096`, `top_p = 0.9`, `top_k = 40`, `timeout = 300` (and
`language = "en"`); the 2048-token / 180-second defaults belong to the
pydantic `StreamRequest` model used for a POST body; a GET request with no
`query` parameter is rejected with HTTP 400. -/
theorem c6_amended (q : String) (hq : q ≠ "") :
    unified_endpoint_get (onlyQueryParams q)
      = Except.ok ⟨q, "en", 5, 0.7, 4096, 0.9, 40, 300⟩ ∧
    (∀ qp : QueryParams, qp.query = none → unified_endpoint_get qp = Except.error 400) ∧
    (streamRequestDefaults q).max_tokens = 2048 ∧ (streamRequestDefaults q).timeout = 180 := by
  refine ⟨?_, ?_, rfl, rfl⟩
  · simp [unified_endpoint_get, onlyQueryParams, hq]
  · intro qp h
    simp [unified_endpoint_get, h]

/-- Witness for the amended C6 at a concrete query. -/
theorem c6_witness :
    ("capital of France" ≠ "") ∧
    (unified_endpoint_get (onlyQueryParams "capital of France")
       = Except.ok ⟨"capital of France", "en", 5, 0.7, 4096, 0.9, 40, 300⟩ ∧
     (∀ qp : QueryParams, qp.query = none → unified_endpoint_get qp = Except.error 400) ∧
     (streamRequestDefaults "capital of France").max_tokens = 2048 ∧
     (streamRequestDefaults "capital of France").timeout = 180) :=
  ⟨by decide, c6_amended "capital of France" (by decide)⟩

/-- C7: the search client maps each failure kind to its typed HTTP error —
403 status to the authentication error, a timeout to 504, a connection
failure to 503, any other status failure to an error carrying the upstream
status and message, other transport or unexpected failures to 500 — and
makes exactly one request attempt per call (its result depends only on
attempt 0, so there are no retries). -/
theorem c7 (t : List Char) :
    (∀ msg, raisedSearchError t (SearchFailure.statusError 403 msg)
       = ⟨403, strL "Authentication failed with Serper.dev API. Please check your API key."⟩) ∧
    (∀ code msg, code ≠ 403 → raisedSearchError t (SearchFailure.statusError code msg)
       = ⟨code, strL "Search API error: " ++ msg⟩) ∧
    (∀ msg, raisedSearchError t (SearchFailure.timeoutErr msg)
       = ⟨504, strL "Search request timed out after " ++ t ++ strL " seconds"⟩) ∧
    (∀ msg, raisedSearchError t (SearchFailure.connectErr msg)
       = ⟨503, strL "Could not connect to search API"⟩) ∧
    (∀ msg, raisedSearchError t (SearchFailure.requestErr msg)
       = ⟨500, strL "Request error: " ++ msg⟩) ∧
    (∀ msg, raisedSearchError t (SearchFailure.otherErr msg)
       = ⟨500, strL "Unexpected error: " ++ msg⟩) ∧
    (∀ a b : Nat → SearchAttempt, a 0 = b 0 → search_serper t a = search_serper t b) := by
  refine ⟨fun msg => rfl, ?_, fun msg => rfl, fun msg => rfl, fun msg => rfl, fun msg => rfl, ?_⟩
  · intro code msg hc
    simp [raisedSearchError, hc]
  · intro a b h
    simp [search_serper, h]

/-- Witness for C7: the non-403 status mapping and the single-attempt
property at concrete inputs. -/
theorem c7_witness :
    ((500 : Nat) ≠ 403 ∧
     raisedSearchError (strL "30.0") (SearchFailure.statusError 500 (strL "boom"))
       = ⟨500, strL "Search API error: " ++ strL "boom"⟩) ∧
    ((fun _ : Nat => SearchAttempt.failure (SearchFailure.connectErr (strL "x"))) 0
       = (fun _ : Nat => SearchAttempt.failure (SearchFailure.connectErr (strL "x"))) 0 ∧
     search_serper (strL "30.0")
        (fun _ => SearchAttempt.failure (SearchFailure.connectErr (strL "x")))
       = search_serper (strL "30.0")
        (fun _ => SearchAttempt.failure (SearchFailure.connectErr (strL "x")))) :=
  ⟨⟨by decide, (c7 (strL "30.0")).2.1 500 (strL "boom") (by decide)⟩,
   ⟨rfl, (c7 (strL "30.0")).2.2.2.2.2.2 _ _ rfl⟩⟩

/-- C8: the prompt formatter depends only on the first 5 organic results
(so the caller-requested cap never affects it), truncates a snippet longer
than 400 characters to exactly 400 characters ending in an ellipsis,
truncates featured-answer text longer than 500 characters to exactly 500
characters ending in an ellipsis; and the `max_search_results` cap applies
to the emitted `search_result` envelopes, whose number is
`min max_search_results organicCount`. -/
theorem c8 :
    (∀ (q : List Char) (organic : List OrganicResult) (box : Option AnswerBox),
        format_optimized_prompt q organic box
          = format_optimized_prompt q (organic.take 5) box) ∧
    (∀ s : List Char, 400 < s.length →
        (truncateSnippet s).length = 400 ∧ ∃ t, truncateSnippet s = t ++ strL "...") ∧
    (∀ s : List Char, 500 < s.length →
        (truncateAnswer s).length = 500 ∧ ∃ t, truncateAnswer s = t ++ strL "...") ∧
    (∀ (sr : SearchData) (maxResults : Nat)
        (genf : SearchData → Except Unit (List (List Char))),
        (generate_unified_stream (fun _ => false) (Except.ok sr) maxResults genf).countP
            isSearchResultEnv
          = min maxResults sr.organic.length) := by
  refine ⟨?_, ?_, ?_, ?_⟩
  · intro q organic box
    simp [format_optimized_prompt, List.take_take]
  · intro s h
    have h397 : (s.take 397).length = 397 := by
      rw [List.length_take]
      omega
    constructor
    · simp only [truncateSnippet, if_pos h, List.length_append, h397]
      rfl
    · exact ⟨s.take 397, by simp only [truncateSnippet, if_pos h]⟩
  · intro s h
    have h497 : (s.take 497).length = 497 := by
      rw [List.length_take]
      omega
    constructor
    · simp only [truncateAnswer, if_pos h, List.length_append, h497]
      rfl
    · exact ⟨s.take 497, by simp only [truncateAnswer, if_pos h]⟩
  · intro sr maxResults genf
    have hl := searchResultsLoop_all_false (fun _ => false) (fun n => rfl)
      (sr.organic.take maxResults) 1
    have h1 : generate_unified_stream (fun _ => false) (Except.ok sr) maxResults genf
        = Envelope.statusEnv "init" :: Envelope.statusEnv "search_start" ::
          Envelope.statusEnv "search_complete" ::
          ((sr.organic.take maxResults).map Envelope.searchResult
            ++ genPhase (fun _ => false) (1 + (sr.organic.take maxResults).length)
                (genf sr)) := by
      simp [generate_unified_stream, hl]
    rw [h1]
    have hz : (genPhase (fun _ => false) (1 + (sr.organic.take maxResults).length)
        (genf sr)).countP isSearchResultEnv = 0 :=
      List.countP_eq_zero.mpr (fun e he => by
        simp [(genPhase_elem (fun _ => false) _ (genf sr) e he).1])
    have hm : ((sr.organic.take maxResults).map Envelope.searchResult).countP
        isSearchResultEnv = (sr.organic.take maxResults).length := by
      have hall : ∀ a ∈ (sr.organic.take maxResults).map Envelope.searchResult,
          isSearchResultEnv a = true := by
        intro a ha
        obtain ⟨r, _, rfl⟩ := List.mem_map.mp ha
        rfl
      have hcl := List.countP_eq_length.mpr (fun a ha => hall a ha)
      rw [List.length_map] at hcl
      exact hcl
    simp only [List.countP_cons, List.countP_append, hz, hm]
    simp [isSearchResultEnv, List.length_take]

set_option maxRecDepth 10000 in
/-- Witness for C8: both truncations at concrete over-long inputs. -/
theorem c8_witness :
    (400 < (List.replicate 401 'a').length ∧
     ((truncateSnippet (List.replicate 401 'a')).length = 400 ∧
      ∃ t, truncateSnippet (List.replicate 401 'a') = t ++ strL "...")) ∧
    (500 < (List.replicate 501 'b').length ∧
     ((truncateAnswer (List.replicate 501 'b')).length = 500 ∧
      ∃ t, truncateAnswer (List.replicate 501 'b') = t ++ strL "...")) :=
  ⟨⟨by decide, c8.2.1 (List.replicate 401 'a') (by decide)⟩,
   ⟨by decide, c8.2.2.1 (List.replicate 501 'b') (by decide)⟩⟩

end LocalSearch